import Mathlib

/-!
Verification of the transaction-posting core of the `ims` inventory
management application.

The development is a shallow embedding of the two server implementations:

* the primary Express server (`server/routes.ts`) — the `POST/PUT/DELETE
  /api/transactions` handlers and the `calculateDiscount` helper;
* the legacy implementation (`backend/InventoryManager.js`) — the
  `createTransaction` and `updateStock` methods with their explicit
  `BEGIN/COMMIT/ROLLBACK` and the `lowStock` event emitter.

Conventions of the embedding:

* SQL `INTEGER` columns and JavaScript numbers holding integers (stock,
  quantity, ids) are `Int`; `DECIMAL` money/percent columns and the
  arithmetic performed on them are `ℚ` (the decimal values occurring in
  the program are exact rationals; floating-point rounding is outside the
  scope of the claims checked here).
* The database is an explicit record of tables (lists of rows).  Every
  operation is a pure function returning the post-state together with the
  response, `Db × Except e α`: each `return res.status(...)`/`throw` in
  the source corresponds to a branch returning the state reached at that
  point.
* JavaScript truthiness on the values that actually flow through these
  code paths is modelled explicitly: a number is falsy exactly when it is
  `0`, a string exactly when it is `""`, `null`/`undefined` are `none`.
* Timestamps (`createdAt`/`updatedAt`) carry no information for any
  property below and are omitted from the rows.
-/

/-- A row of `discount_rules` (shared/schema.ts `discountRules`):
`type` is `"quantity"` or `"customer_category"`, `percent` is the
discount percentage, `categoryTarget` is used by category rules. -/
structure DiscountRule where
  type : String
  threshold : Int
  percent : ℚ
  categoryTarget : Option String
  isActive : Bool
deriving DecidableEq, Repr

/-- A row of `products` (shared/schema.ts `products`). -/
structure Product where
  productId : String
  name : String
  price : ℚ
  stock : Int
  category : String
  lowStockThreshold : Int
deriving DecidableEq, Repr

/-- A row of `customers` (the fields used by the transaction code). -/
structure Customer where
  customerId : String
  name : String
  category : String
deriving DecidableEq, Repr

/-- A row of `transactions` (shared/schema.ts `transactions`).
`discountRate` is the persisted `discount_rate` column (a percentage). -/
structure TransactionRow where
  id : Int
  transactionId : String
  productId : String
  quantity : Int
  type : String
  customerId : Option String
  supplierId : Option String
  unitPrice : ℚ
  discountRate : ℚ
  totalAmount : ℚ
deriving DecidableEq, Repr

/-- The relational store the handlers execute against.  `nextId` models
the `serial` primary key generator of the `transactions` table. -/
structure Db where
  products : List Product
  transactions : List TransactionRow
  customers : List Customer
  discountRules : List DiscountRule
  nextId : Int
deriving DecidableEq, Repr

/-- Embedding of `SELECT * FROM products WHERE product_id = $1` (first row). -/
def findProduct (db : Db) (pid : String) : Option Product :=
  db.products.find? (fun p => p.productId == pid)

/-- Embedding of `SELECT * FROM customers WHERE customer_id = $1` (first row). -/
def findCustomer (db : Db) (cid : String) : Option Customer :=
  db.customers.find? (fun c => c.customerId == cid)

/-- Embedding of `SELECT * FROM transactions WHERE id = $1` (first row). -/
def findTransactionRow (db : Db) (tid : Int) : Option TransactionRow :=
  db.transactions.find? (fun t => t.id == tid)

/-- Embedding of `UPDATE products SET stock = $1 WHERE product_id = $2` (the
`updatedAt` touch carries no information and is dropped). -/
def setProductStock (db : Db) (pid : String) (newStock : Int) : Db :=
  { db with
    products := db.products.map
      (fun p => if p.productId == pid then { p with stock := newStock } else p) }

/-- The stock of the product a `product_id` lookup returns. -/
def stockOf (db : Db) (pid : String) : Option Int :=
  (findProduct db pid).map (·.stock)

/-- JavaScript's `Math.max` on two (non-NaN) numbers. -/
def jsMax (a b : ℚ) : ℚ := if a ≤ b then b else a

/-- The body of the `for (const rule of rules)` loop of
`calculateDiscount` (routes.ts lines 1005–1011): `bestDiscount` is
`Math.max`ed with the rule's percent when the rule matches. -/
def discountStep (quantity : Int) (customerCategory : String)
    (best : ℚ) (rule : DiscountRule) : ℚ :=
  if rule.type == "quantity" && decide (rule.threshold ≤ quantity) then
    jsMax best rule.percent
  else if rule.type == "customer_category" &&
      rule.categoryTarget == some customerCategory then
    jsMax best rule.percent
  else best

/-- Embedding of `routes.ts` `calculateDiscount` (lines 1000–1014): fetch the active
rules, fold `Math.max` over the matching ones starting from `0`, and
return `bestDiscount / 100` (the comment in the source reads "Convert
percentage to decimal"). -/
def calculateDiscount (quantity : Int) (customerCategory : String)
    (allRules : List DiscountRule) : ℚ :=
  let rules := allRules.filter (·.isActive)
  let bestDiscount := rules.foldl (discountStep quantity customerCategory) 0
  bestDiscount / 100

/-- Whether a rule applies to `(quantity, customerCategory)` exactly as
the two branches of the `calculateDiscount` loop test it. -/
def ruleMatches (quantity : Int) (customerCategory : String)
    (rule : DiscountRule) : Bool :=
  (rule.type == "quantity" && decide (rule.threshold ≤ quantity)) ||
    (rule.type == "customer_category" && rule.categoryTarget == some customerCategory)

/-- Specification-side evaluator: the maximum percent over the active
matching rules (`0` when none match). -/
def maxMatchingPercent (quantity : Int) (customerCategory : String)
    (allRules : List DiscountRule) : ℚ :=
  (((allRules.filter (·.isActive)).filter (ruleMatches quantity customerCategory)).map
      (·.percent)).foldl max 0

/-- The discount-rule set of the example in the claim (spec §8). -/
def c4ExampleRules : List DiscountRule :=
  [ { type := "quantity", threshold := 10, percent := 5, categoryTarget := none,
      isActive := true },
    { type := "customer_category", threshold := 1, percent := 15,
      categoryTarget := some "vip", isActive := true } ]

theorem discountStep_eq (quantity : Int) (customerCategory : String)
    (b : ℚ) (r : DiscountRule) :
    discountStep quantity customerCategory b r =
      if ruleMatches quantity customerCategory r then max b r.percent else b := by
  by_cases hq : (r.type == "quantity" && decide (r.threshold ≤ quantity)) = true
  · simp [discountStep, ruleMatches, jsMax, hq, max_def]
  · by_cases hc : (r.type == "customer_category" &&
        r.categoryTarget == some customerCategory) = true
    · simp [discountStep, ruleMatches, jsMax, hq, hc, max_def]
    · simp [discountStep, ruleMatches, jsMax, hq, hc]

theorem foldl_discountStep (quantity : Int) (customerCategory : String)
    (rules : List DiscountRule) (b : ℚ) :
    rules.foldl (discountStep quantity customerCategory) b
      = ((rules.filter (ruleMatches quantity customerCategory)).map (·.percent)).foldl max b := by
  induction rules generalizing b with
  | nil => rfl
  | cons r rs ih =>
    rw [List.foldl_cons, discountStep_eq]
    by_cases h : ruleMatches quantity customerCategory r = true
    · rw [if_pos h, List.filter_cons_of_pos h, List.map_cons, List.foldl_cons, ih]
    · rw [if_neg h, List.filter_cons_of_neg h, ih]

/-- C4, counterexample.  With the rule set of the claim's example,
`calculateDiscount 12 "vip"` evaluates to `3/20 = 0.15`, not `15`: the
function divides the best matching percent by `100` before returning. -/
theorem c4_evaluate_vip_not_fifteen :
    calculateDiscount 12 "vip" c4ExampleRules = 3 / 20 ∧
      calculateDiscount 12 "vip" c4ExampleRules ≠ 15 := by
  have h : calculateDiscount 12 "vip" c4ExampleRules = 3 / 20 := by
    norm_num [calculateDiscount, c4ExampleRules, discountStep, jsMax,
      List.filter, List.foldl]
  refine ⟨h, ?_⟩
  rw [h]
  norm_num

/-- C4, amended.  `calculateDiscount` is a pure function of
`(quantity, customerCategory, rules)` (hence deterministic), and it
returns the maximum percent over the active matching rules — `0` when
none match — **divided by 100**, i.e. a decimal rate; on the example rule
set `evaluate(12, "vip")` is `0.15`, not `15`. -/
theorem c4_calculateDiscount_max_matching :
    (∀ (quantity : Int) (customerCategory : String) (allRules : List DiscountRule),
        calculateDiscount quantity customerCategory allRules =
          maxMatchingPercent quantity customerCategory allRules / 100) ∧
      calculateDiscount 12 "vip" c4ExampleRules = 3 / 20 := by
  constructor
  · intro quantity customerCategory allRules
    simp only [calculateDiscount, maxMatchingPercent]
    rw [foldl_discountStep]
  · norm_num [calculateDiscount, c4ExampleRules, discountStep, jsMax,
      List.filter, List.foldl]

/-- Errors of the primary server's transaction handlers, one constructor
per distinct error response of routes.ts.  `creationFailed` is the
generic `catch` of `POST /api/transactions` (status 400, code
`TRANSACTION_CREATION_ERROR`), which is what a thrown Zod parse error or
a violated `transaction_id` unique constraint surfaces as. -/
inductive PrimaryError where
  | productNotFound
  | transactionNotFound
  | insufficientStock
  | creationFailed
deriving DecidableEq, Repr

/-- The HTTP status each `PrimaryError` is sent with in routes.ts. -/
def PrimaryError.statusCode : PrimaryError → Int
  | .productNotFound => 404
  | .transactionNotFound => 404
  | .insufficientStock => 400
  | .creationFailed => 400

/-- The `error.code` string each `PrimaryError` is sent with. -/
def PrimaryError.errorCode : PrimaryError → String
  | .productNotFound => "PRODUCT_NOT_FOUND"
  | .transactionNotFound => "TRANSACTION_NOT_FOUND"
  | .insufficientStock => "INSUFFICIENT_STOCK"
  | .creationFailed => "TRANSACTION_CREATION_ERROR"

/-- The output of `insertTransactionSchema.parse`: the transaction
columns minus `id`, `createdAt`, `unitPrice`, `totalAmount` (a supplied
`discountRate` is always overwritten by the handler's computed value and
is therefore not carried). -/
structure CreateInput where
  transactionId : String
  productId : String
  quantity : Int
  type : String
  customerId : Option String
  supplierId : Option String
deriving DecidableEq, Repr

/-- JavaScript truthiness of a nullable string
(`validatedData.customerId` in `if (... && validatedData.customerId)`). -/
def strOptTruthy : Option String → Bool
  | some s => s ≠ ""
  | none => false

/-- The `discountRate` a create computes (routes.ts lines 347–356): for a
`sale` with a (truthy) customer id, look the customer up and call
`calculateDiscount`; otherwise the initial `0` stands. -/
def discountRateFor (db : Db) (input : CreateInput) : ℚ :=
  if input.type == "sale" && strOptTruthy input.customerId then
    match findCustomer db (input.customerId.getD "") with
    | some customer =>
        calculateDiscount input.quantity customer.category db.discountRules
    | none => 0
  else 0

/-- The values `db.insert(transactions).values({...validatedData,
unitPrice, discountRate, totalAmount})` receives (routes.ts lines
358–380): `baseAmount = unitPrice * quantity`, `discountAmount =
baseAmount * discountRate`, `totalAmount = baseAmount - discountAmount`,
and the stored `discountRate` is the decimal rate times 100 (the source
comment reads "Store as percentage").  The serial `id` is not yet
assigned. -/
def postRow (db : Db) (input : CreateInput) (product : Product) : TransactionRow :=
  let unitPrice := product.price
  let discountRate := discountRateFor db input
  let baseAmount := unitPrice * (input.quantity : ℚ)
  let discountAmount := baseAmount * discountRate
  let totalAmount := baseAmount - discountAmount
  { id := 0
    transactionId := input.transactionId
    productId := input.productId
    quantity := input.quantity
    type := input.type
    customerId := input.customerId
    supplierId := input.supplierId
    unitPrice := unitPrice
    discountRate := discountRate * 100
    totalAmount := totalAmount }

/-- Embedding of `const stockChange = validatedData.type === 'purchase' ? quantity :
-quantity` (routes.ts line 383): anything other than `purchase` —
including a `type` that is neither `purchase` nor `sale` — subtracts. -/
def stockDelta (input : CreateInput) : Int :=
  if input.type == "purchase" then input.quantity else -input.quantity

/-- The read-only prefix of `POST /api/transactions` (routes.ts lines
334–372): product lookup, discount calculation for sales with a customer,
amount computation, and the stock check for sales.  Returns the row to be
inserted and the new stock value the handler will write, or the error
response it returns instead. -/
def postTransactionChecks (db : Db) (input : CreateInput) :
    Except PrimaryError (TransactionRow × Int) :=
  match findProduct db input.productId with
  | none => .error .productNotFound
  | some product =>
    if input.type == "sale" && decide (product.stock < input.quantity) then
      .error .insufficientStock
    else
      .ok (postRow db input product, product.stock + stockDelta input)

/-- Embedding of `db.insert(transactions).values(...)`: assigns the serial id and
appends the row, or raises the `transactions_transaction_id_unique`
constraint violation (routes.ts has no duplicate pre-check; the thrown
constraint error lands in the handler's `catch`). -/
def insertTransactionRow (db : Db) (row : TransactionRow) :
    Except PrimaryError (Db × TransactionRow) :=
  if db.transactions.any (fun t => t.transactionId == row.transactionId) then
    .error .creationFailed
  else
    let row' := { row with id := db.nextId }
    .ok ({ db with
            transactions := db.transactions ++ [row']
            nextId := db.nextId + 1 }, row')

/-- Embedding of `POST /api/transactions` (routes.ts lines 330–403): checks, then the
row insert, then — as a separate statement — the stock update. -/
def postTransaction (db : Db) (input : CreateInput) :
    Db × Except PrimaryError TransactionRow :=
  match postTransactionChecks db input with
  | .error e => (db, .error e)
  | .ok (row, newStock) =>
    match insertTransactionRow db row with
    | .error e => (db, .error e)
    | .ok (db1, row') =>
        (setProductStock db1 input.productId newStock, .ok row')

/-- The database state observed when execution of `POST
/api/transactions` stops between its two writes — after the
`db.insert(transactions)` statement and before the `db.update(products)`
statement.  The handler wraps the pair in no database transaction, so
this intermediate state is durable. -/
def postTransactionAfterInsert (db : Db) (input : CreateInput) : Db :=
  match postTransactionChecks db input with
  | .error _ => db
  | .ok (row, _) =>
    match insertTransactionRow db row with
    | .error _ => db
    | .ok (db1, _) => db1

/-- The raw JSON body of a create request, before
`insertTransactionSchema.parse`. -/
structure RawCreateBody where
  transactionId : Option String
  productId : Option String
  quantity : Option Int
  type : Option String
  customerId : Option String
  supplierId : Option String
deriving DecidableEq, Repr

/-- Embedding of `insertTransactionSchema.parse` (shared/schema.ts lines 291–296):
`createInsertSchema(transactions).omit({id, createdAt, unitPrice,
totalAmount})` only checks that the non-nullable columns are present with
the right primitive type — it imposes **no** enum on `type` and **no**
positivity on `quantity`.  A parse failure is thrown and caught by the
route's `catch` (status 400, `TRANSACTION_CREATION_ERROR`). -/
def insertTransactionSchemaParse (raw : RawCreateBody) :
    Except PrimaryError CreateInput :=
  match raw.transactionId, raw.productId, raw.quantity, raw.type with
  | some tid, some pid, some q, some ty =>
      .ok { transactionId := tid, productId := pid, quantity := q, type := ty,
            customerId := raw.customerId, supplierId := raw.supplierId }
  | _, _, _, _ => .error .creationFailed

/-- The full `POST /api/transactions` handler including the schema parse. -/
def postTransactionRoute (db : Db) (raw : RawCreateBody) :
    Db × Except PrimaryError TransactionRow :=
  match insertTransactionSchemaParse raw with
  | .error e => (db, .error e)
  | .ok input => postTransaction db input

/-- JavaScript `a || b` where `a` is a possibly-absent number: `0` is
falsy, so a supplied `0` also falls back to `b`
(`updateData.quantity || currentTransaction.quantity`). -/
def jsOrInt (a : Option Int) (b : Int) : Int :=
  match a with
  | some v => if v == 0 then b else v
  | none => b

/-- JavaScript `a || b` where `a` is a possibly-absent string: `""` is
falsy (`updateData.type || currentTransaction.type`). -/
def jsOrStr (a : Option String) (b : String) : String :=
  match a with
  | some v => if v == "" then b else v
  | none => b

/-- The fields of a `PUT /api/transactions/:id` body that the handler's
`...updateData` spread and its stock computation can read.  The body is
not validated; each field is simply present or absent. -/
structure UpdateInput where
  quantity : Option Int
  type : Option String
  customerId : Option String
  supplierId : Option String
  discountRate : Option ℚ
deriving DecidableEq, Repr

/-- Embedding of `{...updateData, unitPrice, totalAmount}` applied to the current row
(routes.ts lines 458–465): fields present in the body overwrite the row
(including a falsy `0`/`""`), then `unitPrice` and `totalAmount` are set
to the freshly computed values. -/
def applyUpdateData (tx : TransactionRow) (upd : UpdateInput)
    (unitPrice totalAmount : ℚ) : TransactionRow :=
  { tx with
    quantity := upd.quantity.getD tx.quantity
    type := upd.type.getD tx.type
    customerId := match upd.customerId with
                  | some c => some c
                  | none => tx.customerId
    supplierId := match upd.supplierId with
                  | some s => some s
                  | none => tx.supplierId
    discountRate := upd.discountRate.getD tx.discountRate
    unitPrice := unitPrice
    totalAmount := totalAmount }

/-- Embedding of `UPDATE transactions SET ... WHERE id = $1`. -/
def setTransactionRow (db : Db) (tid : Int) (row : TransactionRow) : Db :=
  { db with
    transactions := db.transactions.map (fun t => if t.id == tid then row else t) }

/-- The final stock a `PUT /api/transactions/:id` computes (routes.ts
lines 434–442): reverse the stored delta, then apply the new one built
from the `||`-fallback quantity and type. -/
def putFinalStock (currentTransaction : TransactionRow) (product : Product)
    (upd : UpdateInput) : Int :=
  let oldStockChange :=
    if currentTransaction.type == "purchase" then -currentTransaction.quantity
    else currentTransaction.quantity
  let reversedStock := product.stock + oldStockChange
  let newQuantity := jsOrInt upd.quantity currentTransaction.quantity
  let newType := jsOrStr upd.type currentTransaction.type
  let newStockChange :=
    if newType == "purchase" then newQuantity else -newQuantity
  reversedStock + newStockChange

/-- Embedding of `PUT /api/transactions/:id` (routes.ts lines 405–485): load the
transaction and its product, reverse the old stock delta, apply the new
one (with `||` fallbacks for unspecified quantity/type), reject a
negative final stock, recompute `unitPrice`/`totalAmount` from the
current price and new quantity — the discount is **not** recomputed —
then write the row and the stock as two separate statements. -/
def putTransaction (db : Db) (tid : Int) (upd : UpdateInput) :
    Db × Except PrimaryError TransactionRow :=
  match findTransactionRow db tid with
  | none => (db, .error .transactionNotFound)
  | some currentTransaction =>
    match findProduct db currentTransaction.productId with
    | none => (db, .error .productNotFound)
    | some product =>
      let finalStock := putFinalStock currentTransaction product upd
      if finalStock < 0 then
        (db, .error .insufficientStock)
      else
        let newQuantity := jsOrInt upd.quantity currentTransaction.quantity
        let unitPrice := product.price
        let totalAmount := unitPrice * (newQuantity : ℚ)
        let row' := applyUpdateData currentTransaction upd unitPrice totalAmount
        let db1 := setTransactionRow db tid row'
        let db2 := setProductStock db1 currentTransaction.productId finalStock
        (db2, .ok row')

/-- The reversed stock a `DELETE /api/transactions/:id` computes
(routes.ts lines 515–517): undo the stored delta of the row. -/
def deleteNewStock (currentTransaction : TransactionRow) (product : Product) : Int :=
  let stockChange :=
    if currentTransaction.type == "purchase" then -currentTransaction.quantity
    else currentTransaction.quantity
  product.stock + stockChange

/-- Embedding of `DELETE /api/transactions/:id` (routes.ts lines 487–550): load the
transaction and its product, reverse the stored stock delta, reject a
negative resulting stock, then delete the row and write the stock as two
separate statements. -/
def deleteTransaction (db : Db) (tid : Int) :
    Db × Except PrimaryError Unit :=
  match findTransactionRow db tid with
  | none => (db, .error .transactionNotFound)
  | some currentTransaction =>
    match findProduct db currentTransaction.productId with
    | none => (db, .error .productNotFound)
    | some product =>
      let newStock := deleteNewStock currentTransaction product
      if newStock < 0 then
        (db, .error .insufficientStock)
      else
        let db1 := { db with
          transactions := db.transactions.filter (fun t => !(t.id == tid)) }
        let db2 := setProductStock db1 currentTransaction.productId newStock
        (db2, .ok ())

/-- Embedding of `backend/AppError.js`: a structured error with message, HTTP status
and code.  The static constructors are below. -/
structure AppError where
  message : String
  statusCode : Int
  code : String
deriving DecidableEq, Repr

/-- Embedding of `AppError.validation` (400, `VALIDATION_ERROR`). -/
def AppError.validation (message : String) : AppError :=
  { message := message, statusCode := 400, code := "VALIDATION_ERROR" }

/-- Embedding of `AppError.notFound` (404, `NOT_FOUND`). -/
def AppError.notFound (message : String) : AppError :=
  { message := message, statusCode := 404, code := "NOT_FOUND" }

/-- Embedding of `AppError.conflict` (409, `CONFLICT`). -/
def AppError.conflict (message : String) : AppError :=
  { message := message, statusCode := 409, code := "CONFLICT" }

/-- Embedding of `AppError.internal` (500, `INTERNAL_ERROR`). -/
def AppError.internal (message : String) : AppError :=
  { message := message, statusCode := 500, code := "INTERNAL_ERROR" }

/-- The payload of the legacy `lowStock` event
(`InventoryManager.updateStock`, lines 118–125; the ISO timestamp is
dropped). -/
structure LowStockEvent where
  productId : String
  name : String
  currentStock : Int
  threshold : Int
deriving DecidableEq, Repr

/-- A registered `lowStock` listener.  `server.js` registers exactly one
(it logs to the console); Node's `EventEmitter.emit` invokes listeners
synchronously and does **not** catch their exceptions, so a listener is a
function that may throw, and `emit` rethrows what the listener throws. -/
def LowStockHandler : Type := LowStockEvent → Except String Unit

/-- Embedding of `InventoryManager.updateStock(productId, quantity, transactionType)`
(lines 74–139): validation, product lookup, stock computation with the
sale-only negative check, the `UPDATE products` write, then the
synchronous `this.emit('lowStock', ...)` when the new stock is at or
below the threshold.  An exception thrown by the listener escapes `emit`
into the method's `catch`, which wraps non-`AppError` values as
`AppError.internal('Failed to update stock: ' + message)` — after the
stock write has already executed. -/
def updateStock (db : Db) (productId : String) (quantity : Int)
    (transactionType : String) (handler : LowStockHandler) :
    Db × Except AppError Product :=
  if productId == "" || transactionType == "" then
    (db, .error (AppError.validation
      "Product ID, quantity, and transaction type are required"))
  else if !(transactionType == "purchase" || transactionType == "sale") then
    (db, .error (AppError.validation
      "Transaction type must be \"purchase\" or \"sale\""))
  else if quantity ≤ 0 then
    (db, .error (AppError.validation "Quantity must be positive"))
  else
    match findProduct db productId with
    | none => (db, .error (AppError.notFound
        ("Product " ++ productId ++ " not found")))
    | some product =>
      let newStock :=
        if transactionType == "purchase" then product.stock + quantity
        else product.stock - quantity
      if transactionType == "sale" && decide (newStock < 0) then
        (db, .error (AppError.validation "Insufficient stock for sale transaction"))
      else
        let db1 := setProductStock db productId newStock
        if newStock ≤ product.lowStockThreshold then
          match handler { productId := productId, name := product.name,
                          currentStock := newStock,
                          threshold := product.lowStockThreshold } with
          | .error msg =>
              (db1, .error (AppError.internal ("Failed to update stock: " ++ msg)))
          | .ok _ => (db1, .ok { product with stock := newStock })
        else (db1, .ok { product with stock := newStock })

/-- Embedding of `InventoryManager.createTransaction(transactionId, productId,
quantity, type, customerId)` (lines 150–216): validation, the duplicate
`transaction_id` pre-check (`Conflict`), product lookup, pricing with
**no** discount, then `BEGIN`; `INSERT INTO transactions`;
`updateStock`; `COMMIT` — with `ROLLBACK` restoring the pre-`BEGIN`
state when anything inside the block throws. -/
def createTransaction (db : Db) (transactionId : String) (productId : String)
    (quantity : Int) (ttype : String) (customerId : Option String)
    (handler : LowStockHandler) : Db × Except AppError TransactionRow :=
  if transactionId == "" || productId == "" || quantity == 0 || ttype == "" then
    (db, .error (AppError.validation
      "Transaction ID, product ID, quantity, and type are required"))
  else if !(ttype == "purchase" || ttype == "sale") then
    (db, .error (AppError.validation "Type must be \"purchase\" or \"sale\""))
  else if quantity ≤ 0 then
    (db, .error (AppError.validation "Quantity must be positive"))
  else if db.transactions.any (fun t => t.transactionId == transactionId) then
    (db, .error (AppError.conflict
      ("Transaction with ID " ++ transactionId ++ " already exists")))
  else
    match findProduct db productId with
    | none => (db, .error (AppError.notFound
        ("Product " ++ productId ++ " not found")))
    | some product =>
      let unitPrice := product.price
      let totalAmount := unitPrice * (quantity : ℚ)
      let row : TransactionRow :=
        { id := db.nextId
          transactionId := transactionId
          productId := productId
          quantity := quantity
          type := ttype
          customerId := customerId
          supplierId := none
          unitPrice := unitPrice
          discountRate := 0
          totalAmount := totalAmount }
      let db1 : Db := { db with
        transactions := db.transactions ++ [row]
        nextId := db.nextId + 1 }
      match updateStock db1 productId quantity ttype handler with
      | (_, .error e) => (db, .error e)
      | (db2, .ok _) => (db2, .ok row)

theorem setProductStock_transactions (db : Db) (pid : String) (ns : Int) :
    (setProductStock db pid ns).transactions = db.transactions := rfl

theorem setTransactionRow_products (db : Db) (tid : Int) (row : TransactionRow) :
    (setTransactionRow db tid row).products = db.products := rfl

theorem find?_map_comm {α : Type} (f : α → α) (pred : α → Bool)
    (hpred : ∀ a, pred (f a) = pred a) (l : List α) :
    (l.map f).find? pred = (l.find? pred).map f := by
  induction l with
  | nil => rfl
  | cons a l ih =>
    by_cases h : pred a = true
    · simp [List.find?_cons, hpred, h]
    · simp [List.find?_cons, hpred, h, ih]

theorem findProduct_setProductStock (db : Db) (pid : String) (ns : Int)
    (qid : String) :
    findProduct (setProductStock db pid ns) qid =
      (findProduct db qid).map
        (fun p => if p.productId == pid then { p with stock := ns } else p) := by
  unfold findProduct setProductStock
  exact find?_map_comm _ _ (fun p => by by_cases h : p.productId == pid <;> simp [h]) _

theorem postRow_transactionId (db : Db) (input : CreateInput) (p : Product) :
    (postRow db input p).transactionId = input.transactionId := rfl

theorem postRow_productId (db : Db) (input : CreateInput) (p : Product) :
    (postRow db input p).productId = input.productId := rfl

theorem postRow_quantity (db : Db) (input : CreateInput) (p : Product) :
    (postRow db input p).quantity = input.quantity := rfl

theorem postRow_type (db : Db) (input : CreateInput) (p : Product) :
    (postRow db input p).type = input.type := rfl

theorem postRow_unitPrice (db : Db) (input : CreateInput) (p : Product) :
    (postRow db input p).unitPrice = p.price := rfl

theorem postRow_discountRate (db : Db) (input : CreateInput) (p : Product) :
    (postRow db input p).discountRate = discountRateFor db input * 100 := rfl

theorem postRow_totalAmount (db : Db) (input : CreateInput) (p : Product) :
    (postRow db input p).totalAmount =
      p.price * (input.quantity : ℚ) -
        p.price * (input.quantity : ℚ) * discountRateFor db input := rfl

theorem postTransactionChecks_ok {db : Db} {input : CreateInput}
    {row : TransactionRow} {ns : Int}
    (h : postTransactionChecks db input = .ok (row, ns)) :
    ∃ product, findProduct db input.productId = some product ∧
      (input.type == "sale" && decide (product.stock < input.quantity)) = false ∧
      row = postRow db input product ∧
      ns = product.stock + stockDelta input := by
  unfold postTransactionChecks at h
  split at h
  · simp at h
  · rename_i product hfp
    split at h
    · simp at h
    · rename_i hguard
      injection h with hpair
      injection hpair with h1 h2
      exact ⟨product, hfp, by simpa using hguard, h1.symm, h2.symm⟩

theorem postTransaction_ok {db : Db} {input : CreateInput}
    {db' : Db} {row : TransactionRow}
    (h : postTransaction db input = (db', .ok row)) :
    ∃ product,
      findProduct db input.productId = some product ∧
      (input.type == "sale" && decide (product.stock < input.quantity)) = false ∧
      (db.transactions.any
        (fun t => t.transactionId == input.transactionId)) = false ∧
      row = { postRow db input product with id := db.nextId } ∧
      db' = setProductStock
        { db with
            transactions := db.transactions ++ [row]
            nextId := db.nextId + 1 }
        input.productId (product.stock + stockDelta input) := by
  unfold postTransaction at h
  split at h
  · injection h with h1 h2; simp at h2
  · rename_i row0 ns hc
    obtain ⟨product, hfp, hguard, hrow0, hns⟩ := postTransactionChecks_ok hc
    split at h
    · injection h with h1 h2; simp at h2
    · rename_i db1 row1 hins
      unfold insertTransactionRow at hins
      split at hins
      · simp at hins
      · rename_i hdup
        dsimp only at hins
        injection hins with hpair
        injection hpair with hdb1 hrow1
        injection h with hdb' hrowok
        injection hrowok with hrow
        subst hrow0 hns hrow
        refine ⟨product, hfp, hguard, ?_, ?_, ?_⟩
        · rw [postRow_transactionId] at hdup
          simpa using hdup
        · rw [← hrow1]
        · rw [← hdb', ← hdb1, ← hrow1]

theorem putTransaction_ok {db : Db} {tid : Int} {upd : UpdateInput}
    {db' : Db} {row' : TransactionRow}
    (h : putTransaction db tid upd = (db', .ok row')) :
    ∃ tx product,
      findTransactionRow db tid = some tx ∧
      findProduct db tx.productId = some product ∧
      ¬ putFinalStock tx product upd < 0 ∧
      row' = applyUpdateData tx upd product.price
        (product.price * (jsOrInt upd.quantity tx.quantity : ℚ)) ∧
      db' = setProductStock (setTransactionRow db tid row') tx.productId
        (putFinalStock tx product upd) := by
  unfold putTransaction at h
  split at h
  · injection h with h1 h2; simp at h2
  · rename_i tx htx
    split at h
    · injection h with h1 h2; simp at h2
    · rename_i product hp
      dsimp only at h
      split at h
      · injection h with h1 h2; simp at h2
      · rename_i hstock
        injection h with hdb' hrowok
        injection hrowok with hrow
        exact ⟨tx, product, htx, hp, hstock, hrow.symm,
          by rw [← hdb', ← hrow]⟩

theorem deleteTransaction_ok {db : Db} {tid : Int} {db' : Db}
    (h : deleteTransaction db tid = (db', .ok ())) :
    ∃ tx product,
      findTransactionRow db tid = some tx ∧
      findProduct db tx.productId = some product ∧
      ¬ deleteNewStock tx product < 0 ∧
      db' = setProductStock
        { db with transactions := db.transactions.filter (fun t => !(t.id == tid)) }
        tx.productId (deleteNewStock tx product) := by
  unfold deleteTransaction at h
  split at h
  · injection h with h1 h2; simp at h2
  · rename_i tx htx
    split at h
    · injection h with h1 h2; simp at h2
    · rename_i product hp
      dsimp only at h
      split at h
      · injection h with h1 h2; simp at h2
      · rename_i hstock
        injection h with hdb' _
        exact ⟨tx, product, htx, hp, hstock, hdb'.symm⟩

/-- A one-product store used by the concrete instances below (the spec's
§8 example product: price 100, stock 10, low-stock threshold 5). -/
def demoProduct : Product :=
  { productId := "PROD-1", name := "Widget", price := 100, stock := 10,
    category := "Electronics", lowStockThreshold := 5 }

def demoDb : Db :=
  { products := [demoProduct], transactions := [], customers := [],
    discountRules := [], nextId := 1 }

/-- A well-formed sale request for two units of `PROD-1`. -/
def demoSale : CreateInput :=
  { transactionId := "TX-1", productId := "PROD-1", quantity := 2, type := "sale",
    customerId := none, supplierId := none }

/-- C1.  The primary server's create runs its row insert and its
stock update as two separate statements with no wrapping database
transaction (routes.ts lines 375–388): stopping between them leaves a
state with the transaction row persisted (`TX-1` present) but the stock
untouched (still 10), which is neither the initial state (no row) nor
the completed state (stock 8) — the "both or neither" guarantee does not
hold on this path. -/
theorem c1_create_partial_failure_window :
    ((postTransactionAfterInsert demoDb demoSale).transactions.map
        (·.transactionId) = ["TX-1"]) ∧
    stockOf (postTransactionAfterInsert demoDb demoSale) "PROD-1" = some 10 ∧
    ((postTransaction demoDb demoSale).1.transactions.map
        (·.transactionId) = ["TX-1"]) ∧
    stockOf (postTransaction demoDb demoSale).1 "PROD-1" = some 8 ∧
    demoDb.transactions.map (·.transactionId) = [] ∧
    postTransactionAfterInsert demoDb demoSale ≠ demoDb ∧
    postTransactionAfterInsert demoDb demoSale ≠ (postTransaction demoDb demoSale).1 := by
  refine ⟨rfl, rfl, rfl, rfl, rfl, ?_, ?_⟩
  · intro heq
    have h1 : (postTransactionAfterInsert demoDb demoSale).transactions.map
        (·.transactionId) = ["TX-1"] := rfl
    rw [heq] at h1
    exact absurd h1 (by decide)
  · intro heq
    have h1 : stockOf (postTransactionAfterInsert demoDb demoSale) "PROD-1" =
        some 10 := rfl
    rw [heq] at h1
    have h2 : stockOf (postTransaction demoDb demoSale).1 "PROD-1" = some 8 := rfl
    rw [h1] at h2
    exact absurd h2 (by decide)

/-- The product of the C2/C7 counterexamples: stock 3. -/
def gadgetProduct : Product :=
  { productId := "PROD-2", name := "Gadget", price := 10, stock := 3,
    category := "Misc", lowStockThreshold := 1 }

def gadgetDb : Db :=
  { products := [gadgetProduct], transactions := [], customers := [],
    discountRules := [], nextId := 1 }

/-- A create whose `type` is neither `purchase` nor `sale`. -/
def refundInput : CreateInput :=
  { transactionId := "TX-R", productId := "PROD-2", quantity := 5, type := "refund",
    customerId := none, supplierId := none }

/-- C2, counterexample.  A create whose `type` is `"refund"` — which
the primary server's validation does not reject — is treated as a stock
decrease with no stock check (`type === 'purchase' ? q : -q` and the
insufficient-stock guard only fires for `type === 'sale'`): on a product
with stock 3 and quantity 5 the create succeeds and persists stock −2. -/
theorem c2_unknown_type_negative_stock :
    (postTransaction gadgetDb refundInput).2.toOption.isSome = true ∧
    stockOf (postTransaction gadgetDb refundInput).1 "PROD-2" = some (-2) ∧
    stockOf gadgetDb "PROD-2" = some 3 := ⟨rfl, rfl, rfl⟩

/-- All product stocks of the store are non-negative. -/
def nonnegStocks (db : Db) : Prop := ∀ p ∈ db.products, 0 ≤ p.stock

theorem nonnegStocks_setProductStock {db : Db} {pid : String} {ns : Int}
    (h : nonnegStocks db) (hns : 0 ≤ ns) :
    nonnegStocks (setProductStock db pid ns) := by
  intro p hp
  simp only [setProductStock, List.mem_map] at hp
  obtain ⟨q, hq, rfl⟩ := hp
  by_cases hcond : (q.productId == pid) = true
  · simpa [hcond] using hns
  · simpa [hcond] using h q hq

theorem postTransaction_error {db : Db} {input : CreateInput} {db' : Db}
    {e : PrimaryError} (h : postTransaction db input = (db', .error e)) :
    db' = db := by
  unfold postTransaction at h
  split at h
  · injection h with h1 h2; exact h1.symm
  · split at h
    · injection h with h1 h2; exact h1.symm
    · injection h with h1 h2; simp at h2

theorem putTransaction_error {db : Db} {tid : Int} {upd : UpdateInput} {db' : Db}
    {e : PrimaryError} (h : putTransaction db tid upd = (db', .error e)) :
    db' = db := by
  unfold putTransaction at h
  split at h
  · injection h with h1 h2; exact h1.symm
  · split at h
    · injection h with h1 h2; exact h1.symm
    · dsimp only at h
      split at h
      · injection h with h1 h2; exact h1.symm
      · injection h with h1 h2; simp at h2

theorem deleteTransaction_error {db : Db} {tid : Int} {db' : Db}
    {e : PrimaryError} (h : deleteTransaction db tid = (db', .error e)) :
    db' = db := by
  unfold deleteTransaction at h
  split at h
  · injection h with h1 h2; exact h1.symm
  · split at h
    · injection h with h1 h2; exact h1.symm
    · dsimp only at h
      split at h
      · injection h with h1 h2; exact h1.symm
      · injection h with h1 h2; simp at h2

/-- C2, amended.  After any primary-server transaction update or
delete, and after any create whose type is `sale`, or `purchase` with a
non-negative quantity, all product stocks remain non-negative (the
violating operations are rejected before any write).  The restriction on
the create's type/quantity is forced by the counterexample: a create
whose type is neither `purchase` nor `sale` (or a `purchase` with a
negative quantity), which the primary server's validation does not
reject, subtracts stock with no check and can persist a negative stock. -/
theorem c2_amended_nonneg_stock :
    (∀ db input, nonnegStocks db →
        (input.type = "sale" ∨ (input.type = "purchase" ∧ 0 ≤ input.quantity)) →
        nonnegStocks (postTransaction db input).1) ∧
    (∀ db tid upd, nonnegStocks db → nonnegStocks (putTransaction db tid upd).1) ∧
    (∀ db tid, nonnegStocks db → nonnegStocks (deleteTransaction db tid).1) := by
  refine ⟨?_, ?_, ?_⟩
  · intro db input hnn htype
    rcases hres : postTransaction db input with ⟨db', r⟩
    rcases r with e | row
    · dsimp only; rw [postTransaction_error hres]; exact hnn
    · obtain ⟨product, hfp, hguard, hdup, hrow, hdb'⟩ := postTransaction_ok hres
      dsimp only; rw [hdb']
      have hstock0 : 0 ≤ product.stock :=
        hnn product (List.mem_of_find?_eq_some hfp)
      apply nonnegStocks_setProductStock
      · exact fun p hp => hnn p hp
      · rcases htype with hsale | ⟨hpur, hq⟩
        · have hdelta : stockDelta input = -input.quantity := by
            unfold stockDelta; rw [hsale]; exact if_neg (by decide)
          rw [hsale] at hguard
          have hlt : ¬ product.stock < input.quantity := by
            simpa using hguard
          rw [hdelta]; omega
        · have hdelta : stockDelta input = input.quantity := by
            unfold stockDelta; rw [hpur]; exact if_pos (by decide)
          rw [hdelta]; omega
  · intro db tid upd hnn
    rcases hres : putTransaction db tid upd with ⟨db', r⟩
    rcases r with e | row'
    · dsimp only; rw [putTransaction_error hres]; exact hnn
    · obtain ⟨tx, product, htx, hp, hstock, hrow, hdb'⟩ := putTransaction_ok hres
      dsimp only; rw [hdb']
      apply nonnegStocks_setProductStock
      · exact fun p hp2 => hnn p hp2
      · exact Int.not_lt.mp hstock
  · intro db tid hnn
    rcases hres : deleteTransaction db tid with ⟨db', r⟩
    rcases r with e | u
    · dsimp only; rw [deleteTransaction_error hres]; exact hnn
    · cases u
      obtain ⟨tx, product, htx, hp, hstock, hdb'⟩ := deleteTransaction_ok hres
      dsimp only; rw [hdb']
      apply nonnegStocks_setProductStock
      · exact fun p hp2 => hnn p hp2
      · exact Int.not_lt.mp hstock

/-- An update body supplying no fields. -/
def noneUpd : UpdateInput :=
  { quantity := none, type := none, customerId := none, supplierId := none,
    discountRate := none }

/-- Witness for `c2_amended_nonneg_stock` at concrete inputs. -/
theorem c2_amended_nonneg_stock_witness :
    nonnegStocks (postTransaction demoDb demoSale).1 ∧
    nonnegStocks (putTransaction demoDb 1 noneUpd).1 ∧
    nonnegStocks (deleteTransaction demoDb 1).1 :=
  ⟨c2_amended_nonneg_stock.1 demoDb demoSale (by unfold nonnegStocks; decide) (Or.inl rfl),
   c2_amended_nonneg_stock.2.1 demoDb 1 noneUpd (by unfold nonnegStocks; decide),
   c2_amended_nonneg_stock.2.2 demoDb 1 (by unfold nonnegStocks; decide)⟩

/-- C5.  A sale create whose quantity exceeds the product's stock is
rejected with `InsufficientStock` before any write, leaving the store —
products and transaction table — exactly as it was; the legacy
`updateStock` likewise rejects (its error is the 400
`'Insufficient stock for sale transaction'`) before its `UPDATE`. -/
theorem c5_insufficient_stock_no_mutation :
    (∀ db input product,
        findProduct db input.productId = some product →
        input.type = "sale" →
        product.stock < input.quantity →
        postTransaction db input = (db, .error .insufficientStock)) ∧
    (∀ db productId quantity product handler,
        productId ≠ "" →
        0 < quantity →
        findProduct db productId = some product →
        product.stock - quantity < 0 →
        updateStock db productId quantity "sale" handler =
          (db, .error (AppError.validation
            "Insufficient stock for sale transaction"))) := by
  constructor
  · intro db input product hfp hsale hlt
    have hchk : postTransactionChecks db input = .error .insufficientStock := by
      simp only [postTransactionChecks, hfp]
      rw [if_pos]
      rw [hsale]
      simp [hlt]
    simp only [postTransaction, hchk]
  · intro db productId quantity product handler hne h0 hfp hneg
    have hne' : (productId == "") = false := by
      simpa using hne
    simp only [updateStock, hne', hfp]
    rw [if_neg, if_neg, if_neg]
    · rw [if_pos]
      simp only [show (("sale" : String) == "purchase") = false from rfl,
        Bool.false_eq_true, if_false]
      simp [hneg]
    · omega
    · decide
    · decide

/-- Witness for `c5_insufficient_stock_no_mutation`: a sale of 20 against
stock 10 on the primary path, and a sale of 5 against stock 3 on the
legacy path. -/
theorem c5_insufficient_stock_no_mutation_witness :
    postTransaction demoDb { demoSale with quantity := 20 } =
      (demoDb, .error .insufficientStock) ∧
    updateStock gadgetDb "PROD-2" 5 "sale" (fun _ => .ok ()) =
      (gadgetDb, .error (AppError.validation
        "Insufficient stock for sale transaction")) :=
  ⟨c5_insufficient_stock_no_mutation.1 demoDb { demoSale with quantity := 20 }
      demoProduct rfl rfl (by decide),
   c5_insufficient_stock_no_mutation.2 gadgetDb "PROD-2" 5 gadgetProduct
      (fun _ => .ok ()) (by decide) (by decide) rfl (by decide)⟩

/-- A transaction row already persisted under id `TX-1`. -/
def dupRow : TransactionRow :=
  { id := 1, transactionId := "TX-1", productId := "PROD-1", quantity := 1,
    type := "purchase", customerId := none, supplierId := none,
    unitPrice := 100, discountRate := 0, totalAmount := 100 }

def dupDb : Db :=
  { products := [demoProduct], transactions := [dupRow], customers := [],
    discountRules := [], nextId := 2 }

/-- A create request re-using the persisted `TX-1` id. -/
def dupInput : CreateInput :=
  { transactionId := "TX-1", productId := "PROD-1", quantity := 1,
    type := "purchase", customerId := none, supplierId := none }

/-- C6, counterexample.  The primary server has no duplicate-id
pre-check: a create that re-uses an existing `transactionId` is stopped
only by the `transaction_id` unique constraint inside the insert, and the
handler's generic `catch` reports it as status 400
`TRANSACTION_CREATION_ERROR` — not as the 409 `Conflict` of the error
taxonomy (no mutation happens, but the error class is wrong). -/
theorem c6_duplicate_generic_error :
    postTransaction dupDb dupInput = (dupDb, .error .creationFailed) ∧
    PrimaryError.statusCode .creationFailed = 400 ∧
    PrimaryError.errorCode .creationFailed = "TRANSACTION_CREATION_ERROR" ∧
    (AppError.conflict "Transaction with ID TX-1 already exists").statusCode = 409 ∧
    PrimaryError.statusCode .creationFailed ≠
      (AppError.conflict "Transaction with ID TX-1 already exists").statusCode ∧
    PrimaryError.errorCode .creationFailed ≠
      (AppError.conflict "Transaction with ID TX-1 already exists").code :=
  ⟨rfl, rfl, rfl, rfl, by decide, by decide⟩

/-- C6, amended.  A duplicate `transactionId` causes no mutation on
either implementation; the legacy `createTransaction` rejects it with
`Conflict` (409) before any write, while the primary server's create
fails inside the insert (unique constraint) and reports the generic 400
`TRANSACTION_CREATION_ERROR` instead of `Conflict`. -/
theorem c6_amended_duplicate :
    (∀ db transactionId productId quantity ttype customerId handler,
        transactionId ≠ "" → productId ≠ "" → ttype ≠ "" →
        (ttype = "purchase" ∨ ttype = "sale") → 0 < quantity →
        (db.transactions.any (fun t => t.transactionId == transactionId)) = true →
        createTransaction db transactionId productId quantity ttype customerId
            handler =
          (db, .error (AppError.conflict
            ("Transaction with ID " ++ transactionId ++ " already exists")))) ∧
    (∀ db input,
        (db.transactions.any
          (fun t => t.transactionId == input.transactionId)) = true →
        (postTransaction db input).1 = db ∧
        ∀ row, (postTransaction db input).2 ≠ .ok row) := by
  constructor
  · intro db transactionId productId quantity ttype customerId handler
      htid hpid hty htype hq hdup
    unfold createTransaction
    rw [if_neg, if_neg, if_neg, if_pos hdup]
    · omega
    · rcases htype with h | h <;> simp [h]
    · simp [htid, hpid, hty]
      omega
  · intro db input hdup
    constructor
    · rcases hres : postTransaction db input with ⟨db', r⟩
      rcases r with e | row
      · exact postTransaction_error hres
      · exfalso
        obtain ⟨product, hfp, hguard, hdup2, hrow, hdb'⟩ := postTransaction_ok hres
        rw [hdup2] at hdup
        exact absurd hdup (by decide)
    · intro row hok
      rcases hres : postTransaction db input with ⟨db', r⟩
      rw [hres] at hok
      dsimp only at hok
      subst hok
      obtain ⟨product, hfp, hguard, hdup2, hrow, hdb'⟩ := postTransaction_ok hres
      rw [hdup2] at hdup
      exact absurd hdup (by decide)

/-- Witness for `c6_amended_duplicate` at the duplicate store above. -/
theorem c6_amended_duplicate_witness :
    createTransaction dupDb "TX-1" "PROD-1" 1 "purchase" none (fun _ => .ok ()) =
      (dupDb, .error (AppError.conflict
        ("Transaction with ID " ++ "TX-1" ++ " already exists"))) ∧
    (postTransaction dupDb dupInput).1 = dupDb ∧
    ∀ row, (postTransaction dupDb dupInput).2 ≠ .ok row :=
  ⟨c6_amended_duplicate.1 dupDb "TX-1" "PROD-1" 1 "purchase" none
      (fun _ => .ok ()) (by decide) (by decide) (by decide) (Or.inl rfl)
      (by decide) rfl,
   (c6_amended_duplicate.2 dupDb dupInput rfl).1,
   (c6_amended_duplicate.2 dupDb dupInput rfl).2⟩

/-- A create body with a negative quantity — `createInsertSchema` has no
positivity constraint, so it parses. -/
def badQuantityRaw : RawCreateBody :=
  { transactionId := some "TX-B", productId := some "PROD-2",
    quantity := some (-5), type := some "purchase", customerId := none,
    supplierId := none }

/-- C7, counterexample.  A create request with `quantity = -5`
passes the primary server's `insertTransactionSchema.parse` (the schema
checks presence and primitive type only), and the handler then persists
the row and writes stock `3 + (-5) = -2` — instead of failing with a
`Validation` error and performing no mutation. -/
theorem c7_negative_quantity_passes_validation :
    (postTransactionRoute gadgetDb badQuantityRaw).2.toOption.isSome = true ∧
    ((postTransactionRoute gadgetDb badQuantityRaw).1.transactions.map
        (·.transactionId) = ["TX-B"]) ∧
    stockOf (postTransactionRoute gadgetDb badQuantityRaw).1 "PROD-2" =
      some (-2) := ⟨rfl, rfl, rfl⟩

/-- C7, amended.  The legacy `createTransaction` enforces the claim:
missing/falsy required fields, a type outside `{purchase, sale}` and a
non-positive quantity are each rejected with a `Validation` error and no
mutation.  The primary server's schema parse only rejects missing
required fields (as a generic 400); `quantity ≤ 0` and unknown `type`
values pass validation there and the create proceeds. -/
theorem c7_amended_validation :
    (∀ db transactionId productId quantity ttype customerId handler,
        transactionId = "" ∨ productId = "" ∨ quantity = 0 ∨ ttype = "" →
        createTransaction db transactionId productId quantity ttype customerId
            handler =
          (db, .error (AppError.validation
            "Transaction ID, product ID, quantity, and type are required"))) ∧
    (∀ db transactionId productId quantity ttype customerId handler,
        transactionId ≠ "" → productId ≠ "" → quantity ≠ 0 → ttype ≠ "" →
        ttype ≠ "purchase" → ttype ≠ "sale" →
        createTransaction db transactionId productId quantity ttype customerId
            handler =
          (db, .error (AppError.validation
            "Type must be \"purchase\" or \"sale\""))) ∧
    (∀ db transactionId productId quantity ttype customerId handler,
        transactionId ≠ "" → productId ≠ "" → ttype ≠ "" →
        (ttype = "purchase" ∨ ttype = "sale") → quantity < 0 →
        createTransaction db transactionId productId quantity ttype customerId
            handler =
          (db, .error (AppError.validation "Quantity must be positive"))) ∧
    (∀ db raw,
        raw.transactionId = none ∨ raw.productId = none ∨
          raw.quantity = none ∨ raw.type = none →
        postTransactionRoute db raw = (db, .error .creationFailed)) := by
  refine ⟨?_, ?_, ?_, ?_⟩
  · intro db transactionId productId quantity ttype customerId handler h
    unfold createTransaction
    rw [if_pos]
    rcases h with h | h | h | h <;> simp [h]
  · intro db transactionId productId quantity ttype customerId handler
      htid hpid hq hty hp hs
    unfold createTransaction
    rw [if_neg, if_pos]
    · simp [hp, hs]
    · simp [htid, hpid, hq, hty]
  · intro db transactionId productId quantity ttype customerId handler
      htid hpid hty htype hq
    unfold createTransaction
    rw [if_neg, if_neg, if_pos]
    · omega
    · rcases htype with h | h <;> simp [h]
    · simp [htid, hpid, hty]
      omega
  · intro db raw h
    have hparse : insertTransactionSchemaParse raw = .error .creationFailed := by
      unfold insertTransactionSchemaParse
      split
      · rcases h with h | h | h | h <;> simp_all
      · rfl
    simp only [postTransactionRoute, hparse]

/-- Witness for `c7_amended_validation` at concrete inputs: an empty
transaction id, an unknown type, a negative quantity (all legacy), and a
body missing its transaction id (primary parse). -/
theorem c7_amended_validation_witness :
    createTransaction demoDb "" "PROD-1" 1 "purchase" none (fun _ => .ok ()) =
      (demoDb, .error (AppError.validation
        "Transaction ID, product ID, quantity, and type are required")) ∧
    createTransaction demoDb "TX-7" "PROD-1" 1 "refund" none (fun _ => .ok ()) =
      (demoDb, .error (AppError.validation
        "Type must be \"purchase\" or \"sale\"")) ∧
    createTransaction demoDb "TX-7" "PROD-1" (-3) "sale" none (fun _ => .ok ()) =
      (demoDb, .error (AppError.validation "Quantity must be positive")) ∧
    postTransactionRoute demoDb
        { transactionId := none, productId := some "PROD-1", quantity := some 1,
          type := some "sale", customerId := none, supplierId := none } =
      (demoDb, .error .creationFailed) :=
  ⟨c7_amended_validation.1 demoDb "" "PROD-1" 1 "purchase" none
      (fun _ => .ok ()) (Or.inl rfl),
   c7_amended_validation.2.1 demoDb "TX-7" "PROD-1" 1 "refund" none
      (fun _ => .ok ()) (by decide) (by decide) (by decide) (by decide)
      (by decide) (by decide),
   c7_amended_validation.2.2.1 demoDb "TX-7" "PROD-1" (-3) "sale" none
      (fun _ => .ok ()) (by decide) (by decide) (by decide) (Or.inr rfl)
      (by decide),
   c7_amended_validation.2.2.2 demoDb _ (Or.inl rfl)⟩

/-- A registered `lowStock` listener that throws. -/
def throwingHandler : LowStockHandler := fun _ => .error "listener exploded"

/-- C8.  On the spec's own example (stock 10, threshold 5, sale of
6), a `lowStock` listener that throws makes the legacy `updateStock`
return the 500 `Internal` error instead of returning normally: `emit` is
synchronous and uncaught, so the listener's exception reaches the
method's `catch` and is rethrown — after the stock write (stock is 4).
Called inside `createTransaction`'s transaction block, that same
propagated error triggers `ROLLBACK`, undoing the stock write as well. -/
theorem c8_throwing_handler_fails_update :
    updateStock demoDb "PROD-1" 6 "sale" throwingHandler =
      (setProductStock demoDb "PROD-1" 4,
        .error (AppError.internal "Failed to update stock: listener exploded")) ∧
    stockOf (updateStock demoDb "PROD-1" 6 "sale" throwingHandler).1 "PROD-1" =
      some 4 ∧
    (AppError.internal "Failed to update stock: listener exploded").statusCode =
      500 := ⟨rfl, rfl, rfl⟩

theorem find?_append_of_none {α : Type} (p : α → Bool) (l1 l2 : List α)
    (h : ∀ a ∈ l1, p a = false) : (l1 ++ l2).find? p = l2.find? p := by
  induction l1 with
  | nil => rfl
  | cons a l ih =>
    have ha : p a = false := h a (List.mem_cons_self a l)
    simp only [List.cons_append, List.find?_cons, ha]
    exact ih (fun b hb => h b (List.mem_cons_of_mem a hb))

/-- C3.  When a create succeeds (under a fresh serial id, as the
`serial` primary key guarantees) and the delete of the created row then
also succeeds, the product's stock is restored exactly: the delete's
reversal delta is the exact inverse of the create's delta, whatever the
stored `type` is. -/
theorem c3_create_delete_restores_stock
    (db : Db) (input : CreateInput) (db1 db2 : Db) (row : TransactionRow)
    (hfresh : ∀ t ∈ db.transactions, t.id ≠ db.nextId)
    (h1 : postTransaction db input = (db1, .ok row))
    (h2 : deleteTransaction db1 row.id = (db2, .ok ())) :
    stockOf db2 input.productId = stockOf db input.productId := by
  obtain ⟨product, hfp, hguard, hdup, hrow, hdb1⟩ := postTransaction_ok h1
  have hrow_id : row.id = db.nextId := by rw [hrow]
  have hrow_pid : row.productId = input.productId := by rw [hrow]; rfl
  have hrow_type : row.type = input.type := by rw [hrow]; rfl
  have hrow_q : row.quantity = input.quantity := by rw [hrow]; rfl
  have hfp' : List.find? (fun p => p.productId == input.productId) db.products =
      some product := hfp
  have hpidtrue : (product.productId == input.productId) = true := by
    have h := List.find?_some hfp'
    exact h
  have htrans1 : db1.transactions = db.transactions ++ [row] := by
    rw [hdb1]; rfl
  have hfind : findTransactionRow db1 row.id = some row := by
    unfold findTransactionRow
    rw [htrans1, find?_append_of_none]
    · simp [List.find?_cons]
    · intro t ht
      rw [hrow_id]
      simpa using hfresh t ht
  have hfp1 : findProduct db1 input.productId =
      some { product with stock := product.stock + stockDelta input } := by
    rw [hdb1, findProduct_setProductStock]
    have hsame : findProduct
        { db with
            transactions := db.transactions ++ [row]
            nextId := db.nextId + 1 } input.productId =
        findProduct db input.productId := rfl
    rw [hsame, hfp]
    simp only [Option.map_some', hpidtrue, if_true]
  obtain ⟨tx, product2, htx2, hp2, hguard2, hdb2⟩ := deleteTransaction_ok h2
  rw [hfind] at htx2
  injection htx2 with htxrow
  subst htxrow
  rw [hrow_pid] at hp2
  rw [hfp1] at hp2
  injection hp2 with hprod2
  subst hprod2
  have hdel : deleteNewStock row
      { product with stock := product.stock + stockDelta input } =
      product.stock := by
    unfold deleteNewStock
    dsimp only
    rw [hrow_type, hrow_q]
    unfold stockDelta
    by_cases hbt : (input.type == "purchase") = true
    · simp only [hbt, if_true]
      omega
    · simp only [hbt, Bool.false_eq_true, if_false]
      omega
  rw [hdb2]
  unfold stockOf
  rw [hrow_pid, findProduct_setProductStock]
  have hsame2 : findProduct
      { db1 with
          transactions := db1.transactions.filter (fun t => !(t.id == row.id)) }
      input.productId = findProduct db1 input.productId := rfl
  rw [hsame2, hfp1, hdel, hfp]
  simp only [Option.map_some', hpidtrue, if_true]

/-- Witness for `c3_create_delete_restores_stock`: create then delete of
a sale of 2 on the demo store. -/
theorem c3_create_delete_restores_stock_witness :
    stockOf (deleteTransaction (postTransaction demoDb demoSale).1
        ({ postRow demoDb demoSale demoProduct with id := demoDb.nextId }).id).1
      demoSale.productId = stockOf demoDb demoSale.productId :=
  c3_create_delete_restores_stock demoDb demoSale
    (postTransaction demoDb demoSale).1
    (deleteTransaction (postTransaction demoDb demoSale).1
        ({ postRow demoDb demoSale demoProduct with id := demoDb.nextId }).id).1
    { postRow demoDb demoSale demoProduct with id := demoDb.nextId }
    (by decide) rfl rfl

/-- A persisted sale row carrying a non-zero `discountRate` snapshot
(price 100, quantity 2, 15 % discount, total 170). -/
def c9Row : TransactionRow :=
  { id := 1, transactionId := "TX-9", productId := "PROD-1", quantity := 2,
    type := "sale", customerId := none, supplierId := none,
    unitPrice := 100, discountRate := 15, totalAmount := 170 }

def c9Db : Db :=
  { products := [demoProduct], transactions := [c9Row], customers := [],
    discountRules := [], nextId := 2 }

/-- C9.  On a successful primary-server update, the persisted
`totalAmount` is the product's current price times the effective new
quantity with no discount factor, and `discountRate` keeps its pre-update
value whenever the caller supplies none; consequently (second conjunct) a
row updated while holding a non-zero stored `discountRate` no longer
satisfies `totalAmount = unitPrice * quantity * (1 - discountRate/100)`. -/
theorem c9_put_total_and_discount :
    (∀ db tid upd db' row',
        putTransaction db tid upd = (db', .ok row') →
        upd.discountRate = none →
        ∃ tx product,
          findTransactionRow db tid = some tx ∧
          findProduct db tx.productId = some product ∧
          row'.totalAmount =
            product.price * ((jsOrInt upd.quantity tx.quantity : Int) : ℚ) ∧
          row'.discountRate = tx.discountRate) ∧
    (∃ row', (putTransaction c9Db 1 noneUpd).2 = .ok row' ∧
        row'.totalAmount = 200 ∧ row'.unitPrice = 100 ∧ row'.quantity = 2 ∧
        row'.discountRate = 15 ∧
        row'.totalAmount ≠
          row'.unitPrice * (row'.quantity : ℚ) * (1 - row'.discountRate / 100)) := by
  constructor
  · intro db tid upd db' row' h hnd
    obtain ⟨tx, product, htx, hp, hstock, hrow, hdb'⟩ := putTransaction_ok h
    refine ⟨tx, product, htx, hp, ?_, ?_⟩
    · rw [hrow]
      rfl
    · rw [hrow]
      show upd.discountRate.getD tx.discountRate = tx.discountRate
      rw [hnd]
      rfl
  · refine ⟨applyUpdateData c9Row noneUpd demoProduct.price
        (demoProduct.price * ((jsOrInt noneUpd.quantity c9Row.quantity : Int) : ℚ)),
      rfl, ?_, ?_, ?_, ?_, ?_⟩
    · norm_num [applyUpdateData, demoProduct, jsOrInt, c9Row, noneUpd]
    · norm_num [applyUpdateData, demoProduct, jsOrInt, c9Row, noneUpd]
    · norm_num [applyUpdateData, demoProduct, jsOrInt, c9Row, noneUpd]
    · norm_num [applyUpdateData, demoProduct, jsOrInt, c9Row, noneUpd]
    · norm_num [applyUpdateData, demoProduct, jsOrInt, c9Row, noneUpd]

/-- Witness for (the universally quantified part of)
`c9_put_total_and_discount`: the field-less update of the 15 %-discount
row above. -/
theorem c9_put_total_and_discount_witness :
    ∃ tx product,
      findTransactionRow c9Db 1 = some tx ∧
      findProduct c9Db tx.productId = some product ∧
      (applyUpdateData c9Row noneUpd demoProduct.price
          (demoProduct.price *
            ((jsOrInt noneUpd.quantity c9Row.quantity : Int) : ℚ))).totalAmount =
        product.price * ((jsOrInt noneUpd.quantity tx.quantity : Int) : ℚ) ∧
      (applyUpdateData c9Row noneUpd demoProduct.price
          (demoProduct.price *
            ((jsOrInt noneUpd.quantity c9Row.quantity : Int) : ℚ))).discountRate =
        tx.discountRate :=
  c9_put_total_and_discount.1 c9Db 1 noneUpd (putTransaction c9Db 1 noneUpd).1
    (applyUpdateData c9Row noneUpd demoProduct.price
      (demoProduct.price * ((jsOrInt noneUpd.quantity c9Row.quantity : Int) : ℚ)))
    rfl rfl

/-- C10.  Every successful primary-server create persists
`discountRate` as 100 times the decimal rate the discount evaluator
produced (0 when no sale/customer applies), and the persisted row is
internally consistent: `totalAmount = unitPrice * quantity *
(1 - discountRate/100)` holds exactly over ℚ. -/
theorem c10_create_percent_and_total :
    ∀ db input db' row,
      postTransaction db input = (db', .ok row) →
      ∃ product, findProduct db input.productId = some product ∧
        row.unitPrice = product.price ∧
        row.discountRate = 100 * discountRateFor db input ∧
        row.totalAmount =
          row.unitPrice * (row.quantity : ℚ) * (1 - row.discountRate / 100) := by
  intro db input db' row h
  obtain ⟨product, hfp, hguard, hdup, hrow, hdb'⟩ := postTransaction_ok h
  refine ⟨product, hfp, ?_, ?_, ?_⟩
  · rw [hrow]
    rfl
  · rw [hrow]
    show discountRateFor db input * 100 = 100 * discountRateFor db input
    ring
  · rw [hrow]
    show product.price * (input.quantity : ℚ) -
        product.price * (input.quantity : ℚ) * discountRateFor db input =
      product.price * (input.quantity : ℚ) *
        (1 - discountRateFor db input * 100 / 100)
    ring

/-- The row the demo sale create persists. -/
def demoCreatedRow : TransactionRow :=
  { postRow demoDb demoSale demoProduct with id := demoDb.nextId }

/-- Witness for `c10_create_percent_and_total`: the demo sale create. -/
theorem c10_create_percent_and_total_witness :
    ∃ product, findProduct demoDb demoSale.productId = some product ∧
      demoCreatedRow.unitPrice = product.price ∧
      demoCreatedRow.discountRate = 100 * discountRateFor demoDb demoSale ∧
      demoCreatedRow.totalAmount =
        demoCreatedRow.unitPrice * (demoCreatedRow.quantity : ℚ) *
          (1 - demoCreatedRow.discountRate / 100) :=
  c10_create_percent_and_total demoDb demoSale
    (postTransaction demoDb demoSale).1 demoCreatedRow rfl
